import Mathlib

/-!
Verification of the rpassword library (src/lib.rs): a shallow embedding of
the line sanitizer, the secret eraser, the reader facade and the two
platform terminal drivers, together with theorems settling the frozen
claims about them.

Strings are modelled as lists of characters (a Rust String is a sequence of
chars; the character-level operations ends_with and pop of the source map to
List.getLast? and List.dropLast).  OS interactions (opening /dev/tty,
isatty, tcgetattr/tcsetattr, GetConsoleMode/SetConsoleMode, the line read)
are modelled by a world record supplying the outcome of each call, and each
driver run returns the result together with the observable final state:
buffer contents at return, terminal mode at return, which mode-set calls
were attempted, and what was printed to standard output.
-/

set_option maxHeartbeats 1000000

/-- An OS-level error value, abstracted to an opaque code. -/
structure IOErr where
  code : Nat
deriving DecidableEq, Repr

/-- POSIX termios, abstracted to the flag bits the program touches
(ECHO and ECHONL of c_lflag) plus an opaque remainder of the structure. -/
structure Termios where
  echo : Bool
  echonl : Bool
  rest : Nat
deriving DecidableEq, Repr

instance : DecidableEq (Except (IOErr × List Char) (List Char)) := fun a b =>
  match a, b with
  | .ok x, .ok y =>
    if h : x = y then isTrue (by rw [h]) else isFalse (by intro hh; cases hh; exact h rfl)
  | .error x, .error y =>
    if h : x = y then isTrue (by rw [h]) else isFalse (by intro hh; cases hh; exact h rfl)
  | .ok _, .error _ => isFalse (by intro hh; cases hh)
  | .error _, .ok _ => isFalse (by intro hh; cases hh)

instance : DecidableEq (Except IOErr (List Char)) := fun a b =>
  match a, b with
  | .ok x, .ok y =>
    if h : x = y then isTrue (by rw [h]) else isFalse (by intro hh; cases hh; exact h rfl)
  | .error x, .error y =>
    if h : x = y then isTrue (by rw [h]) else isFalse (by intro hh; cases hh; exact h rfl)
  | .ok _, .error _ => isFalse (by intro hh; cases hh)
  | .error _, .ok _ => isFalse (by intro hh; cases hh)

/-- Sets all bytes of a String to 0 (fn zero_memory of src/lib.rs). -/
def zero_memory (s : List Char) : List Char :=
  s.map (fun _ => Char.ofNat 0)

/-- Removes the newline from the read line (fn fixes_newline of src/lib.rs):
if the string ends with a newline, pop it, and then pop a carriage return
too when one is now trailing. -/
def fixes_newline (password : List Char) : List Char :=
  if password.getLast? = some '\n' then
    if password.dropLast.getLast? = some '\r' then
      password.dropLast.dropLast
    else password.dropLast
  else password

/-- The sanitizer as the spec words it: remove one trailing CRLF pair, or
else one trailing LF, or else nothing. -/
def stripTerminator (s : List Char) : List Char :=
  if ['\r', '\n'] <:+ s then s.dropLast.dropLast
  else if ['\n'] <:+ s then s.dropLast
  else s

/-- The bytes BufRead::read_line consumes from a byte source: everything up
to and including the first 0x0A, or the whole source if it has none. -/
def takeLine : List Nat → List Nat
  | [] => []
  | b :: rest => if b = 10 then [10] else b :: takeLine rest

/-- A UTF-8 continuation byte. -/
def isCont (b : Nat) : Bool := 0x80 ≤ b && b ≤ 0xBF

/-- Strict UTF-8 decoding of a byte sequence (the validation read_line
performs), rejecting overlong forms, surrogates and values above 0x10FFFF. -/
def utf8Decode : List Nat → Option (List Char)
  | [] => some []
  | b :: rest =>
    if b ≤ 0x7F then
      (utf8Decode rest).map (fun cs => Char.ofNat b :: cs)
    else if 0xC2 ≤ b && b ≤ 0xDF then
      match rest with
      | c1 :: rest2 =>
        if isCont c1 then
          (utf8Decode rest2).map (fun cs =>
            Char.ofNat ((b - 0xC0) * 0x40 + (c1 - 0x80)) :: cs)
        else none
      | [] => none
    else if 0xE0 ≤ b && b ≤ 0xEF then
      match rest with
      | c1 :: c2 :: rest3 =>
        if (if b = 0xE0 then 0xA0 else 0x80) ≤ c1
            && c1 ≤ (if b = 0xED then 0x9F else 0xBF) && isCont c2 then
          (utf8Decode rest3).map (fun cs =>
            Char.ofNat ((b - 0xE0) * 0x1000 + (c1 - 0x80) * 0x40 + (c2 - 0x80)) :: cs)
        else none
      | _ => none
    else if 0xF0 ≤ b && b ≤ 0xF4 then
      match rest with
      | c1 :: c2 :: c3 :: rest4 =>
        if (if b = 0xF0 then 0x90 else 0x80) ≤ c1
            && c1 ≤ (if b = 0xF4 then 0x8F else 0xBF) && isCont c2 && isCont c3 then
          (utf8Decode rest4).map (fun cs =>
            Char.ofNat ((b - 0xF0) * 0x40000 + (c1 - 0x80) * 0x1000
              + (c2 - 0x80) * 0x40 + (c3 - 0x80)) :: cs)
        else none
      | _ => none
    else none

/-- The error read_line reports for a stream that is not valid UTF-8. -/
def utf8Err : IOErr := ⟨1⟩

/-- BufRead::read_line on a pure byte source, appending to a char buffer:
the consumed line is appended when it is valid UTF-8; otherwise the buffer
is left unchanged (read_line truncates an invalid appendix away) and an
InvalidData error is returned. -/
def readLineResult (src : List Nat) (buf : List Char) :
    Except (IOErr × List Char) (List Char) :=
  match utf8Decode (takeLine src) with
  | some cs => .ok (buf ++ cs)
  | none => .error (utf8Err, buf)

/-- The UTF-8 bytes of an ASCII string literal, as numbers. -/
def strBytes (s : String) : List Nat := s.toList.map Char.toNat

/-- The outcomes of the OS calls a unix read_password_from_stdin run makes:
opening /dev/tty, isatty, the two tcgetattr snapshots, the tcsetattr that
applies the echo-hiding mode, the line read (an error carries the partial
valid content read_line leaves appended to the buffer) and the tcsetattr
that restores the original mode. -/
structure UnixWorld where
  openErr : Option IOErr
  isTty : Bool
  mode0 : Termios
  getattrErr1 : Option IOErr
  getattrErr2 : Option IOErr
  setattrHideErr : Option IOErr
  readOutcome : Except (IOErr × List Char) (List Char)
  setattrRestoreErr : Option IOErr
deriving DecidableEq, Repr

/-- Observable outcome of one driver run on the unix side: the returned
value, the contents of the password buffer when the function returns, the
terminal mode at return, whether the echo-hiding mode got applied, whether
a restoring mode-set call was made before returning, whether /dev/tty was
opened, every tcsetattr attempt in order, and what was printed to standard
output. -/
structure URun where
  result : Except IOErr (List Char)
  finalBuffer : List Char
  finalMode : Termios
  modeMutated : Bool
  restoreAttempted : Bool
  openedTty : Bool
  setCalls : List Termios
  stdoutTrace : List (List Char)
deriving DecidableEq, Repr

/-- The mutated settings: c_lflag loses ECHO and gains ECHONL. -/
def hiddenMode (m : Termios) : Termios := { m with echo := false, echonl := true }

namespace unix

/-- Body of the unix read after the input source was selected (lines 79-147
of src/lib.rs): isatty decides between the echo-hiding path and the plain
read; a failed tcsetattr leaves the device mode unchanged. -/
def readBody (openedTty : Bool) (w : UnixWorld) : URun :=
  if w.isTty then
    match w.getattrErr1 with
    | some e =>
      { result := .error e, finalBuffer := [], finalMode := w.mode0,
        modeMutated := false, restoreAttempted := false, openedTty,
        setCalls := [], stdoutTrace := [] }
    | none =>
      match w.getattrErr2 with
      | some e =>
        { result := .error e, finalBuffer := [], finalMode := w.mode0,
          modeMutated := false, restoreAttempted := false, openedTty,
          setCalls := [], stdoutTrace := [] }
      | none =>
        match w.setattrHideErr with
        | some e =>
          { result := .error e, finalBuffer := [], finalMode := w.mode0,
            modeMutated := false, restoreAttempted := false, openedTty,
            setCalls := [hiddenMode w.mode0], stdoutTrace := [] }
        | none =>
          match w.readOutcome with
          | .error (e, pbuf) =>
            match w.setattrRestoreErr with
            | some e2 =>
              -- the restoring tcsetattr fails: its error propagates through
              -- the question-mark operator, skipping the zero_memory call
              { result := .error e2, finalBuffer := pbuf,
                finalMode := hiddenMode w.mode0,
                modeMutated := true, restoreAttempted := true, openedTty,
                setCalls := [hiddenMode w.mode0, w.mode0], stdoutTrace := [] }
            | none =>
              { result := .error e, finalBuffer := zero_memory pbuf,
                finalMode := w.mode0,
                modeMutated := true, restoreAttempted := true, openedTty,
                setCalls := [hiddenMode w.mode0, w.mode0], stdoutTrace := [] }
          | .ok bytes =>
            match w.setattrRestoreErr with
            | some e =>
              { result := .error e, finalBuffer := zero_memory bytes,
                finalMode := hiddenMode w.mode0,
                modeMutated := true, restoreAttempted := true, openedTty,
                setCalls := [hiddenMode w.mode0, w.mode0], stdoutTrace := [] }
            | none =>
              { result := .ok (fixes_newline bytes),
                finalBuffer := fixes_newline bytes, finalMode := w.mode0,
                modeMutated := true, restoreAttempted := true, openedTty,
                setCalls := [hiddenMode w.mode0, w.mode0], stdoutTrace := [] }
  else
    match w.readOutcome with
    | .error (e, pbuf) =>
      { result := .error e, finalBuffer := zero_memory pbuf,
        finalMode := w.mode0, modeMutated := false, restoreAttempted := false,
        openedTty, setCalls := [], stdoutTrace := [] }
    | .ok bytes =>
      { result := .ok (fixes_newline bytes), finalBuffer := fixes_newline bytes,
        finalMode := w.mode0, modeMutated := false, restoreAttempted := false,
        openedTty, setCalls := [], stdoutTrace := [] }

/-- unix::read_password_from_stdin of src/lib.rs: select /dev/tty or the
process standard input, then run the body. -/
def read_password_from_stdin (open_tty : Bool) (w : UnixWorld) : URun :=
  if open_tty then
    match w.openErr with
    | some e =>
      { result := .error e, finalBuffer := [], finalMode := w.mode0,
        modeMutated := false, restoreAttempted := false, openedTty := true,
        setCalls := [], stdoutTrace := [] }
    | none => readBody true w
  else readBody false w

end unix

/-- The console mode the windows driver applies while reading:
ENABLE_LINE_INPUT together with ENABLE_PROCESSED_INPUT (echo bit cleared). -/
def winNewMode : Nat := 2 ||| 1

/-- The outcomes of the OS calls a windows read_password_from_stdin run
makes: obtaining the console handle, GetConsoleMode, the SetConsoleMode
that applies the no-echo mode, the line read and the SetConsoleMode that
restores the saved mode. -/
structure WinWorld where
  handleErr : Option IOErr
  mode0 : Nat
  getModeErr : Option IOErr
  setModeHideErr : Option IOErr
  readOutcome : Except (IOErr × List Char) (List Char)
  setModeRestoreErr : Option IOErr
deriving DecidableEq, Repr

/-- Observable outcome of one windows driver run. -/
structure WRun where
  result : Except IOErr (List Char)
  finalBuffer : List Char
  finalMode : Nat
  modeMutated : Bool
  restoreAttempted : Bool
  stdoutTrace : List (List Char)
deriving DecidableEq, Repr

namespace windows

/-- windows::read_password_from_stdin of src/lib.rs (lines 170-227): get the
handle (CONIN when open_tty, the standard input handle otherwise), save the
console mode, apply the no-echo mode, read a line, restore the mode only
after a successful read, and print a blank line on success. -/
def read_password_from_stdin (open_tty : Bool) (w : WinWorld) : WRun :=
  let _ := open_tty
  match w.handleErr with
  | some e =>
    { result := .error e, finalBuffer := [], finalMode := w.mode0,
      modeMutated := false, restoreAttempted := false, stdoutTrace := [] }
  | none =>
    match w.getModeErr with
    | some e =>
      { result := .error e, finalBuffer := [], finalMode := w.mode0,
        modeMutated := false, restoreAttempted := false, stdoutTrace := [] }
    | none =>
      match w.setModeHideErr with
      | some e =>
        { result := .error e, finalBuffer := [], finalMode := w.mode0,
          modeMutated := false, restoreAttempted := false, stdoutTrace := [] }
      | none =>
        match w.readOutcome with
        | .error (e, pbuf) =>
          -- read failed: the buffer is zeroed and the read error returned,
          -- but no restoring SetConsoleMode call is made
          { result := .error e, finalBuffer := zero_memory pbuf,
            finalMode := winNewMode, modeMutated := true,
            restoreAttempted := false, stdoutTrace := [] }
        | .ok bytes =>
          match w.setModeRestoreErr with
          | some e =>
            -- restore failed: the error is returned without zeroing
            { result := .error e, finalBuffer := bytes,
              finalMode := winNewMode, modeMutated := true,
              restoreAttempted := true, stdoutTrace := [] }
          | none =>
            { result := .ok (fixes_newline bytes),
              finalBuffer := fixes_newline bytes, finalMode := w.mode0,
              modeMutated := true, restoreAttempted := true,
              stdoutTrace := [['\n', '\n']] }

end windows

/-- read_password_with_reader of src/lib.rs, built for the unix target: a
supplied byte source is read directly (one read_line, zero on failure,
sanitize on success) without touching the terminal; with no source the unix
driver runs on standard input with open_tty = false. -/
def read_password_with_reader (source : Option (List Nat)) (w : UnixWorld) : URun :=
  match source with
  | some src =>
    match readLineResult src [] with
    | .error (e, pbuf) =>
      { result := .error e, finalBuffer := zero_memory pbuf,
        finalMode := w.mode0, modeMutated := false, restoreAttempted := false,
        openedTty := false, setCalls := [], stdoutTrace := [] }
    | .ok pbuf =>
      { result := .ok (fixes_newline pbuf), finalBuffer := fixes_newline pbuf,
        finalMode := w.mode0, modeMutated := false, restoreAttempted := false,
        openedTty := false, setCalls := [], stdoutTrace := [] }
  | none => unix.read_password_from_stdin false w

/-- read_password of src/lib.rs: the reader facade with no source. -/
def read_password (w : UnixWorld) : URun :=
  read_password_with_reader none w

/-- Recognizer for a successful read outcome. -/
def readOk : Except (IOErr × List Char) (List Char) → Bool
  | .ok _ => true
  | .error _ => false

/-- Recognizer for a successful run result. -/
def resultOk : Except IOErr (List Char) → Bool
  | .ok _ => true
  | .error _ => false

/-- A unix world on an interactive terminal where every call succeeds and
one line is read. -/
def wOk : UnixWorld :=
  { openErr := none, isTty := true, mode0 := ⟨true, false, 0⟩,
    getattrErr1 := none, getattrErr2 := none, setattrHideErr := none,
    readOutcome := .ok ['a', '\n'], setattrRestoreErr := none }

/-- A unix world where standard input is not a terminal. -/
def wPipe : UnixWorld :=
  { openErr := none, isTty := false, mode0 := ⟨true, false, 0⟩,
    getattrErr1 := none, getattrErr2 := none, setattrHideErr := none,
    readOutcome := .ok ['a', '\n'], setattrRestoreErr := none }

/-- A unix world where the read succeeds but the restoring tcsetattr
fails. -/
def wRestoreFail : UnixWorld :=
  { openErr := none, isTty := true, mode0 := ⟨true, false, 0⟩,
    getattrErr1 := none, getattrErr2 := none, setattrHideErr := none,
    readOutcome := .ok ['a', '\n'], setattrRestoreErr := some ⟨9⟩ }

/-- A unix world where the read fails, leaving the partial secret "s" in
the buffer, and the restoring tcsetattr fails too. -/
def wDoubleFail : UnixWorld :=
  { openErr := none, isTty := true, mode0 := ⟨true, false, 0⟩,
    getattrErr1 := none, getattrErr2 := none, setattrHideErr := none,
    readOutcome := .error (⟨8⟩, ['s']), setattrRestoreErr := some ⟨9⟩ }

/-- A unix world where the read fails and the restore succeeds. -/
def wReadFail : UnixWorld :=
  { openErr := none, isTty := true, mode0 := ⟨true, false, 0⟩,
    getattrErr1 := none, getattrErr2 := none, setattrHideErr := none,
    readOutcome := .error (⟨8⟩, ['s']), setattrRestoreErr := none }

/-- A windows world where every call succeeds and one line is read. -/
def wwOk : WinWorld :=
  { handleErr := none, mode0 := 7, getModeErr := none, setModeHideErr := none,
    readOutcome := .ok ['p', '\n'], setModeRestoreErr := none }

/-- A windows world where the read succeeds but the restoring
SetConsoleMode fails. -/
def wwRestoreFail : WinWorld :=
  { handleErr := none, mode0 := 7, getModeErr := none, setModeHideErr := none,
    readOutcome := .ok ['p', '\n'], setModeRestoreErr := some ⟨9⟩ }

/-- A list whose last element is known splits off that element. -/
theorem exists_concat_of_getLast? {s : List Char} {a : Char}
    (h : s.getLast? = some a) : ∃ t, s = t ++ [a] := by
  rcases List.eq_nil_or_concat' s with rfl | ⟨t, b, rfl⟩
  · cases h
  · rw [List.getLast?_concat] at h
    obtain rfl : b = a := Option.some.inj h
    exact ⟨t, rfl⟩

/-- The sanitizer removes a trailing CRLF pair. -/
theorem fixes_newline_concat_crlf (t : List Char) :
    fixes_newline (t ++ ['\r', '\n']) = t := by
  have h : t ++ ['\r', '\n'] = (t ++ ['\r']) ++ ['\n'] := by simp
  rw [fixes_newline, h]
  simp [List.getLast?_concat, List.dropLast_concat]

/-- The sanitizer removes a lone trailing LF. -/
theorem fixes_newline_concat_lf (t : List Char) (h : t.getLast? ≠ some '\r') :
    fixes_newline (t ++ ['\n']) = t := by
  rw [fixes_newline]
  simp [List.getLast?_concat, List.dropLast_concat, h]

/-- The sanitizer leaves a string with no trailing LF unchanged. -/
theorem fixes_newline_no_lf (s : List Char) (h : s.getLast? ≠ some '\n') :
    fixes_newline s = s := by
  rw [fixes_newline, if_neg h]

/-- Sanitizing a string that does end in LF strictly shortens it. -/
theorem fixes_newline_length_lt (s : List Char) (h : s.getLast? = some '\n') :
    (fixes_newline s).length < s.length := by
  have hne : s ≠ [] := by intro he; rw [he] at h; cases h
  have hlen : 0 < s.length := List.length_pos.mpr hne
  rw [fixes_newline, if_pos h]
  split <;> simp [List.length_dropLast] <;> omega

/-- A CRLF suffix forces the last character to be LF. -/
theorem getLast?_of_crlf_suffix {s : List Char} (h : ['\r', '\n'] <:+ s) :
    s.getLast? = some '\n' := by
  obtain ⟨t, rfl⟩ := h
  have : t ++ ['\r', '\n'] = (t ++ ['\r']) ++ ['\n'] := by simp
  rw [this, List.getLast?_concat]

/-- An LF suffix forces the last character to be LF. -/
theorem getLast?_of_lf_suffix {s : List Char} (h : ['\n'] <:+ s) :
    s.getLast? = some '\n' := by
  obtain ⟨t, rfl⟩ := h
  exact List.getLast?_concat t

/-- The code sanitizer and the spec sanitizer agree on every string. -/
theorem fixes_newline_eq_stripTerminator (s : List Char) :
    fixes_newline s = stripTerminator s := by
  by_cases h1 : s.getLast? = some '\n'
  · obtain ⟨t, rfl⟩ := exists_concat_of_getLast? h1
    by_cases h2 : t.getLast? = some '\r'
    · obtain ⟨u, rfl⟩ := exists_concat_of_getLast? h2
      have hu : (u ++ ['\r']) ++ ['\n'] = u ++ ['\r', '\n'] := by simp
      rw [hu, fixes_newline_concat_crlf, stripTerminator,
        if_pos (List.suffix_append u ['\r', '\n'])]
      have : u ++ ['\r', '\n'] = (u ++ ['\r']) ++ ['\n'] := by simp
      rw [this, List.dropLast_concat, List.dropLast_concat]
    · rw [fixes_newline_concat_lf t h2, stripTerminator]
      have hnot : ¬ (['\r', '\n'] <:+ t ++ ['\n']) := by
        rintro ⟨u, hu⟩
        have : (u ++ ['\r']) ++ ['\n'] = t ++ ['\n'] := by simpa using hu
        have ht : u ++ ['\r'] = t := List.append_cancel_right this
        exact h2 (by rw [← ht, List.getLast?_concat])
      rw [if_neg hnot, if_pos (List.suffix_append t ['\n']), List.dropLast_concat]
  · rw [fixes_newline_no_lf s h1, stripTerminator]
    have hn1 : ¬ (['\r', '\n'] <:+ s) := fun h => h1 (getLast?_of_crlf_suffix h)
    have hn2 : ¬ (['\n'] <:+ s) := fun h => h1 (getLast?_of_lf_suffix h)
    rw [if_neg hn1, if_neg hn2]

/-- Claim C1 counterexample: the input "a\r" ends in a carriage return but
not in a newline; the claim says that trailing carriage return is removed,
but fixes_newline returns the string unchanged. -/
theorem C1_sanitizer_counterexample :
    fixes_newline ['a', '\r'] = ['a', '\r'] ∧ ['a', '\r'] ≠ ['a'] := by
  decide

/-- Claim C1 (amended): the sanitizer removes exactly one trailing CRLF
pair, or else exactly one trailing LF, and otherwise returns the string
unchanged; in particular a trailing carriage return without a following
newline is kept, and no other characters are modified. -/
theorem C1_sanitizer_amended (s : List Char) :
    fixes_newline s = stripTerminator s :=
  fixes_newline_eq_stripTerminator s

/-- Claim C1, amended theorem evaluated at concrete inputs. -/
theorem C1_sanitizer_amended_witness :
    fixes_newline ['a', '\r', '\n'] = stripTerminator ['a', '\r', '\n']
    ∧ fixes_newline ['a', '\r'] = stripTerminator ['a', '\r'] :=
  ⟨C1_sanitizer_amended ['a', '\r', '\n'], C1_sanitizer_amended ['a', '\r']⟩

/-- Claim C8 counterexample: the sanitizer is not idempotent on the string
made of two newlines; the first pass leaves one newline and the second pass
removes it. -/
theorem C8_idempotence_counterexample :
    fixes_newline (fixes_newline ['\n', '\n']) ≠ fixes_newline ['\n', '\n'] := by
  decide

/-- Claim C8 (amended): sanitizing twice agrees with sanitizing once
exactly when the once-sanitized string does not itself still end in a
newline; in particular sanitizing an already-sanitized single read line is
a no-op. -/
theorem C8_idempotence_amended (s : List Char) :
    fixes_newline (fixes_newline s) = fixes_newline s
    ↔ (fixes_newline s).getLast? ≠ some '\n' := by
  constructor
  · intro h hcon
    have hlt := fixes_newline_length_lt (fixes_newline s) hcon
    rw [h] at hlt
    exact lt_irrefl _ hlt
  · exact fixes_newline_no_lf _

/-- Claim C8, amended theorem evaluated at a concrete input. -/
theorem C8_idempotence_amended_witness :
    fixes_newline (fixes_newline ['a', '\n']) = fixes_newline ['a', '\n'] :=
  (C8_idempotence_amended ['a', '\n']).mpr (by decide)

/-- On the unix side a restoring tcsetattr is attempted exactly when the
echo-hiding mode got applied, and the final mode is the original one unless
the mode was mutated and the restoring call failed. -/
theorem unix_restore_characterization (w : UnixWorld) (ot : Bool) :
    ((unix.read_password_from_stdin ot w).restoreAttempted
        = (unix.read_password_from_stdin ot w).modeMutated)
    ∧ ((unix.read_password_from_stdin ot w).finalMode
        = if (unix.read_password_from_stdin ot w).modeMutated = true
              ∧ w.setattrRestoreErr.isSome
          then hiddenMode w.mode0 else w.mode0) := by
  obtain ⟨o, tty, m, g1, g2, sh, ro, sr⟩ := w
  cases ot <;> cases o <;> cases tty <;> cases g1 <;> cases g2 <;> cases sh <;>
    rcases ro with ⟨e, p⟩ | bs <;> cases sr <;>
    simp [unix.read_password_from_stdin, unix.readBody]

/-- On the windows side a restoring SetConsoleMode is attempted only when
the mode got mutated and the read succeeded; a failed read or a failed
restore leaves the console in the modified mode. -/
theorem windows_restore_characterization (w : WinWorld) (ot : Bool) :
    ((windows.read_password_from_stdin ot w).restoreAttempted
        = ((windows.read_password_from_stdin ot w).modeMutated
            && readOk w.readOutcome))
    ∧ ((windows.read_password_from_stdin ot w).finalMode
        = if (windows.read_password_from_stdin ot w).modeMutated = true
              ∧ (readOk w.readOutcome = false ∨ w.setModeRestoreErr.isSome)
          then winNewMode else w.mode0) := by
  obtain ⟨h, m2, gm, smh, ro2, smr⟩ := w
  cases h <;> cases gm <;> cases smh <;> rcases ro2 with ⟨e2, p2⟩ | bs2 <;>
    cases smr <;>
    simp [windows.read_password_from_stdin, readOk]

/-- The unix run with open_tty = false never opens the terminal device and
makes no mode-set call when standard input is not a terminal. -/
theorem unix_stdin_no_tty_open (w : UnixWorld) :
    (unix.read_password_from_stdin false w).openedTty = false
    ∧ (w.isTty = false → (unix.read_password_from_stdin false w).setCalls = []) := by
  obtain ⟨o, tty, m, g1, g2, sh, ro, sr⟩ := w
  cases tty <;> cases g1 <;> cases g2 <;> cases sh <;>
    rcases ro with ⟨e, p⟩ | bs <;> cases sr <;>
    simp [unix.read_password_from_stdin, unix.readBody]

/-- The unix driver never prints anywhere. -/
theorem unix_no_stdout (w : UnixWorld) (ot : Bool) :
    (unix.read_password_from_stdin ot w).stdoutTrace = [] := by
  obtain ⟨o, tty, m, g1, g2, sh, ro, sr⟩ := w
  cases ot <;> cases o <;> cases tty <;> cases g1 <;> cases g2 <;> cases sh <;>
    rcases ro with ⟨e, p⟩ | bs <;> cases sr <;>
    simp [unix.read_password_from_stdin, unix.readBody]

/-- The windows driver prints a blank line exactly on its success path. -/
theorem windows_stdout_characterization (w : WinWorld) (ot : Bool) :
    (windows.read_password_from_stdin ot w).stdoutTrace
      = (if resultOk (windows.read_password_from_stdin ot w).result
         then [['\n', '\n']] else []) := by
  obtain ⟨h, m2, gm, smh, ro2, smr⟩ := w
  cases h <;> cases gm <;> cases smh <;> rcases ro2 with ⟨e2, p2⟩ | bs2 <;>
    cases smr <;>
    simp [windows.read_password_from_stdin, resultOk]

/-- Claim C2: the code violates the zeroing contract. In the unix driver,
when the line read fails and the restoring tcsetattr also fails, the
restore error propagates through the question-mark operator on line 112 of
src/lib.rs and the zero_memory call below it is skipped, so the error
returns with the partial secret still in the buffer; the windows driver
likewise returns a restore failure after a successful read (line 220)
without zeroing the fully read password. -/
theorem C2_zeroing_bug_eval :
    (unix.read_password_from_stdin false wDoubleFail).result = .error ⟨9⟩
    ∧ (unix.read_password_from_stdin false wDoubleFail).finalBuffer = ['s']
    ∧ 's' ≠ Char.ofNat 0
    ∧ (windows.read_password_from_stdin false wwRestoreFail).result = .error ⟨9⟩
    ∧ (windows.read_password_from_stdin false wwRestoreFail).finalBuffer
        = ['p', '\n'] := by
  decide

/-- Claim C3 counterexample: on an interactive terminal where every call up
to the read succeeds and the restoring tcsetattr fails, the function
returns with the terminal mode different from the mode before the call and
with echo still disabled. -/
theorem C3_restoration_counterexample :
    (unix.read_password_from_stdin false wRestoreFail).finalMode
        ≠ wRestoreFail.mode0
    ∧ (unix.read_password_from_stdin false wRestoreFail).finalMode.echo
        = false := by
  decide

/-- Claim C3 (amended): the unix driver attempts the restoring mode-set
call before returning on every exit path on which the mode was mutated,
and the mode after the call equals the mode before the call unless that
restoring call itself fails, in which case the terminal is left in the
no-echo mode; the windows driver attempts the restore only when the mode
was mutated and the read succeeded, and a failed read or a failed restore
leaves the console in the modified mode. -/
theorem C3_restoration_amended (w : UnixWorld) (ww : WinWorld) (ot ot2 : Bool) :
    ((unix.read_password_from_stdin ot w).restoreAttempted
        = (unix.read_password_from_stdin ot w).modeMutated)
    ∧ ((unix.read_password_from_stdin ot w).finalMode
        = if (unix.read_password_from_stdin ot w).modeMutated = true
              ∧ w.setattrRestoreErr.isSome
          then hiddenMode w.mode0 else w.mode0)
    ∧ ((windows.read_password_from_stdin ot2 ww).restoreAttempted
        = ((windows.read_password_from_stdin ot2 ww).modeMutated
            && readOk ww.readOutcome))
    ∧ ((windows.read_password_from_stdin ot2 ww).finalMode
        = if (windows.read_password_from_stdin ot2 ww).modeMutated = true
              ∧ (readOk ww.readOutcome = false ∨ ww.setModeRestoreErr.isSome)
          then winNewMode else ww.mode0) :=
  ⟨(unix_restore_characterization w ot).1,
   (unix_restore_characterization w ot).2,
   (windows_restore_characterization ww ot2).1,
   (windows_restore_characterization ww ot2).2⟩

/-- Claim C3, amended theorem evaluated at a concrete world. -/
theorem C3_restoration_amended_witness :
    (unix.read_password_from_stdin false wOk).finalMode
      = (if (unix.read_password_from_stdin false wOk).modeMutated = true
            ∧ wOk.setattrRestoreErr.isSome
         then hiddenMode wOk.mode0 else wOk.mode0) :=
  (C3_restoration_amended wOk wwOk false false).2.1

/-- Claim C4: when the interactive read fails and the restoring tcsetattr
also fails, the unix driver returns the restoration error; when the
restore succeeds it returns the original read error. -/
theorem C4_error_precedence (w : UnixWorld) (ot : Bool) (e : IOErr)
    (p : List Char) (hopen : w.openErr = none) (htty : w.isTty = true)
    (hg1 : w.getattrErr1 = none) (hg2 : w.getattrErr2 = none)
    (hset : w.setattrHideErr = none)
    (hread : w.readOutcome = .error (e, p)) :
    (unix.read_password_from_stdin ot w).result
      = .error (w.setattrRestoreErr.getD e) := by
  obtain ⟨o, tty, m, g1, g2, sh, ro, sr⟩ := w
  dsimp only at hopen htty hg1 hg2 hset hread
  subst hopen htty hg1 hg2 hset hread
  cases ot <;> cases sr <;>
    simp [unix.read_password_from_stdin, unix.readBody]

/-- Claim C4, evaluated at a concrete world where both the read and the
restore fail: the restore error (code 9) wins over the read error
(code 8). -/
theorem C4_error_precedence_witness :
    (unix.read_password_from_stdin true wDoubleFail).result = .error ⟨9⟩ :=
  C4_error_precedence wDoubleFail true ⟨8⟩ ['s'] rfl rfl rfl rfl rfl rfl

/-- Claim C5 counterexample: with an interactive standard input, the call
chain of read_password does manipulate the terminal mode (two tcsetattr
calls are made), refuting the no-mode-manipulation part of the claim. -/
theorem C5_reader_equivalence_counterexample :
    read_password wOk = read_password_with_reader none wOk
    ∧ (read_password wOk).setCalls ≠ [] :=
  ⟨rfl, by decide⟩

/-- Claim C5 (amended): read_password is the reader-based variant invoked
with no source, for every state of standard input; it never opens the
terminal device, and it performs no terminal-mode manipulation whenever
standard input is not an interactive terminal. -/
theorem C5_reader_equivalence_amended (w : UnixWorld) :
    read_password w = read_password_with_reader none w
    ∧ (read_password w).openedTty = false
    ∧ (w.isTty = false → (read_password w).setCalls = []) :=
  ⟨rfl, (unix_stdin_no_tty_open w).1, (unix_stdin_no_tty_open w).2⟩

/-- Claim C5, amended theorem evaluated at a non-terminal world. -/
theorem C5_reader_equivalence_amended_witness :
    read_password wPipe = read_password_with_reader none wPipe
    ∧ (read_password wPipe).setCalls = [] :=
  ⟨(C5_reader_equivalence_amended wPipe).1,
   (C5_reader_equivalence_amended wPipe).2.2 rfl⟩

/-- Claim C6: a source that is immediately at end-of-input yields the
empty secret successfully, not an error. -/
theorem C6_empty_input (w : UnixWorld) :
    (read_password_with_reader (some []) w).result = .ok [] := rfl

/-- Claim C6, evaluated at a concrete world. -/
theorem C6_empty_input_witness :
    (read_password_with_reader (some []) wOk).result = .ok [] :=
  C6_empty_input wOk

/-- The reader branch of the facade on a source whose line decodes. -/
theorem reader_result_of_ok {src : List Nat} {cs : List Char} (w : UnixWorld)
    (h : utf8Decode (takeLine src) = some cs) :
    (read_password_with_reader (some src) w).result = .ok (fixes_newline cs) := by
  have hr : readLineResult src [] = .ok cs := by
    unfold readLineResult
    rw [h]
    rfl
  simp only [read_password_with_reader, hr]

/-- The reader branch of the facade on a source whose line does not
decode: the InvalidData error is returned and the buffer is left empty. -/
theorem reader_result_of_err {src : List Nat} (w : UnixWorld)
    (h : utf8Decode (takeLine src) = none) :
    (read_password_with_reader (some src) w).result = .error utf8Err
    ∧ (read_password_with_reader (some src) w).finalBuffer = [] := by
  have hr : readLineResult src [] = .error (utf8Err, []) := by
    unfold readLineResult
    rw [h]
  constructor
  · simp [read_password_with_reader, hr]
  · simp [read_password_with_reader, hr, zero_memory]

/-- Claim C7: the reader-based variant reads exactly one line from the
supplied source and returns it with the trailing terminator stripped; the
two mocked sources of the repository tests both yield the mocked response
without its line ending. -/
theorem C7_reader_line (src : List Nat) (cs : List Char) (w : UnixWorld)
    (h : utf8Decode (takeLine src) = some cs) :
    (read_password_with_reader (some src) w).result = .ok (stripTerminator cs)
    ∧ (read_password_with_reader
        (some (strBytes "A mocked response.\r\n")) w).result
        = .ok "A mocked response.".toList
    ∧ (read_password_with_reader
        (some (strBytes "A mocked response.\n")) w).result
        = .ok "A mocked response.".toList := by
  refine ⟨?_, ?_, ?_⟩
  · rw [reader_result_of_ok w h, fixes_newline_eq_stripTerminator]
  · rw [reader_result_of_ok w
      (show utf8Decode (takeLine (strBytes "A mocked response.\x0d\n"))
          = some "A mocked response.\x0d\n".toList by decide)]
    decide
  · rw [reader_result_of_ok w
      (show utf8Decode (takeLine (strBytes "A mocked response.\n"))
          = some "A mocked response.\n".toList by decide)]
    decide

/-- Claim C7, evaluated at a concrete source. -/
theorem C7_reader_line_witness :
    (read_password_with_reader (some (strBytes "ok\n")) wOk).result
      = .ok (stripTerminator ['o', 'k', '\n']) :=
  (C7_reader_line (strBytes "ok\n") ['o', 'k', '\n'] wOk (by decide)).1

/-- Claim C9 counterexample: the windows driver prints a blank line to
standard output on its success path. -/
theorem C9_no_printing_counterexample :
    (windows.read_password_from_stdin false wwOk).stdoutTrace ≠ [] := by
  decide

/-- Claim C9 (amended): the unix driver prints nothing on any path; the
windows driver prints nothing on its error paths but prints a blank line
to standard output exactly on its success path. -/
theorem C9_no_printing_amended (w : UnixWorld) (ww : WinWorld) (ot ot2 : Bool) :
    (unix.read_password_from_stdin ot w).stdoutTrace = []
    ∧ (windows.read_password_from_stdin ot2 ww).stdoutTrace
        = (if resultOk (windows.read_password_from_stdin ot2 ww).result
           then [['\n', '\n']] else []) :=
  ⟨unix_no_stdout w ot, windows_stdout_characterization ww ot2⟩

/-- Claim C9, amended theorem evaluated at concrete worlds. -/
theorem C9_no_printing_amended_witness :
    (unix.read_password_from_stdin false wOk).stdoutTrace = [] :=
  (C9_no_printing_amended wOk wwOk false false).1

/-- Claim C10: a source whose first line is not valid UTF-8 makes the
reader-based variant fail with the InvalidData error, never a success, and
every character left in the buffer at return is zero (read_line truncates
the invalid bytes away and zero_memory zeroes what remains). -/
theorem C10_invalid_utf8 (src : List Nat) (w : UnixWorld)
    (h : utf8Decode (takeLine src) = none) :
    (read_password_with_reader (some src) w).result = .error utf8Err
    ∧ ∀ c ∈ (read_password_with_reader (some src) w).finalBuffer,
        c = Char.ofNat 0 := by
  refine ⟨(reader_result_of_err w h).1, ?_⟩
  rw [(reader_result_of_err w h).2]
  intro c hc
  cases hc

/-- Claim C10, evaluated at a source starting with an invalid byte. -/
theorem C10_invalid_utf8_witness :
    (read_password_with_reader (some [255, 10]) wOk).result = .error utf8Err :=
  (C10_invalid_utf8 [255, 10] wOk (by decide)).1
